import Mathlib

/-!
Verification development for the mvp-vision-ai-platform repository.

The definitions below are shallow embeddings of the Python source:

* `Ultra` embeds the Ultralytics training adapter
  (`mvp/training/adapters/ultralytics_adapter.py`).
* `Mvp` embeds the MVP backend: the conversation domain model
  (`mvp/backend/app/models/conversation.py`), the chat action handlers
  (`mvp/backend/app/services/action_handlers.py`) and the projects API
  (`mvp/backend/app/api/projects.py`).
* `Platform` embeds the Platform backend: the training-job callback
  endpoint (`platform/backend/app/api/training.py`) and the export and
  deployment endpoints (`platform/backend/app/api/export.py`).

Python dictionaries are modelled as association lists whose lookup takes
the first matching key; machine floats that only travel through the code
as opaque payload data are modelled as rationals.
-/

/-- Truthiness of a Python `Optional[str]`: `None` and the empty string
are falsy, every other string is truthy. -/
def strTruthy : Option String → Bool
  | none => false
  | some s => s ≠ ""

namespace Ultra

/-- Task types understood by the Ultralytics adapter's TASK_SUFFIX_MAP
(`ultralytics_adapter.py`, lines 21-26). -/
inductive TaskType where
  | objectDetection
  | instanceSegmentation
  | poseEstimation
  | imageClassification
deriving DecidableEq, Repr

/-- TASK_SUFFIX_MAP of `UltralyticsAdapter` (`ultralytics_adapter.py`,
lines 21-26): the per-task weight-filename suffix. -/
def taskSuffix : TaskType → String
  | .objectDetection => ""
  | .instanceSegmentation => "-seg"
  | .poseEstimation => "-pose"
  | .imageClassification => "-cls"

/-- Weight-filename resolution of `UltralyticsAdapter.prepare_model`
(`ultralytics_adapter.py`, lines 38-39):
`model_path = f"(model_name)(suffix).pt"` — the suffix is appended
unconditionally to the configured model name. -/
def prepareModelPath (modelName : String) (taskType : TaskType) : String :=
  modelName ++ taskSuffix taskType ++ ".pt"

end Ultra

namespace Mvp

/-- Heterogeneous configuration value as it travels through the
`temp_data["config"]` bag: strings, integers, or floats (as rationals). -/
inductive ConfigVal where
  | s (v : String)
  | i (v : Int)
  | f (v : Rat)
deriving DecidableEq, Repr

/-- Association-list model of a Python dict. Lookup takes the first
matching key. -/
abbrev ConfigDict := List (String × ConfigVal)

/-- Dict lookup: `d.get(k)` returning `None` when the key is absent. -/
def dlookup (d : ConfigDict) (k : String) : Option ConfigVal :=
  (d.find? (fun p => p.1 = k)).map (·.2)

/-- Python `(**d1, **d2)` dict merge: keys of `d2` win over keys of
`d1`; modelled so that `dlookup` agrees with the Python semantics. -/
def pyMerge (d1 d2 : ConfigDict) : ConfigDict :=
  d1.filter (fun p => (dlookup d2 p.1).isNone) ++ d2

/-- TrainingConfig value object (`conversation.py`, lines 149-159): all
nine fields are optional. -/
structure TrainingConfig where
  framework : Option String
  modelName : Option String
  taskType : Option String
  datasetPath : Option String
  datasetFormat : Option String
  numClasses : Option Int
  epochs : Option Int
  batchSize : Option Int
  learningRate : Option Rat
deriving DecidableEq, Repr

/-- The `required_fields` list shared by `is_complete` and
`get_missing_fields` (`conversation.py`, lines 163-171 and 176-184). -/
def requiredFields : List String :=
  ["framework", "model_name", "task_type", "dataset_path",
   "epochs", "batch_size", "learning_rate"]

/-- Python `getattr(self, field) is not None` for the field names used
by `TrainingConfig` (`conversation.py`). Only the nine declared field
names ever reach this function. -/
def TrainingConfig.fieldPresent (tc : TrainingConfig) : String → Bool
  | "framework" => tc.framework.isSome
  | "model_name" => tc.modelName.isSome
  | "task_type" => tc.taskType.isSome
  | "dataset_path" => tc.datasetPath.isSome
  | "dataset_format" => tc.datasetFormat.isSome
  | "num_classes" => tc.numClasses.isSome
  | "epochs" => tc.epochs.isSome
  | "batch_size" => tc.batchSize.isSome
  | "learning_rate" => tc.learningRate.isSome
  | _ => false

/-- TrainingConfig.is_complete (`conversation.py`, lines 161-172):
`all(getattr(self, field) is not None for field in required_fields)`. -/
def TrainingConfig.isComplete (tc : TrainingConfig) : Bool :=
  requiredFields.all (fun f => tc.fieldPresent f)

/-- TrainingConfig.get_missing_fields (`conversation.py`, lines
174-185): the required fields whose value is `None`, in list order. -/
def TrainingConfig.getMissingFields (tc : TrainingConfig) : List String :=
  requiredFields.filter (fun f => ! tc.fieldPresent f)

end Mvp

namespace Mvp

/-- ConversationState enum (`conversation.py`, lines 15-42). -/
inductive ConversationState where
  | initial
  | gatheringConfig
  | selectingProject
  | creatingProject
  | confirming
  | complete
  | error
deriving DecidableEq, Repr

/-- Project row of the MVP backend. The column set follows the spec's
Project entry (id, name, description, task_type, user_id) as read and
written by `projects.py` and `action_handlers.py`; the declaring
`db/models.py` module is not in the source tree. -/
structure Project where
  id : Nat
  name : String
  description : Option String
  taskType : Option ConfigVal
  userId : Option Nat
deriving DecidableEq, Repr

/-- TrainingJob row of the MVP backend, restricted to the columns
written by `_handle_start_training` (`action_handlers.py`, lines
425-442). -/
structure TrainingJob where
  id : Nat
  sessionId : Nat
  projectId : Option Nat
  framework : Option ConfigVal
  modelName : Option ConfigVal
  taskType : Option ConfigVal
  datasetPath : Option ConfigVal
  datasetFormat : ConfigVal
  numClasses : Option ConfigVal
  epochs : Option ConfigVal
  batchSize : Option ConfigVal
  learningRate : Option ConfigVal
  outputDir : String
  experimentName : Option ConfigVal
  tags : Option ConfigVal
  notes : Option ConfigVal
  status : String
deriving DecidableEq, Repr

/-- Database state visible to the projects API and the action
handlers. -/
structure MvpDb where
  projects : List Project
  trainingJobs : List TrainingJob
  nextProjectId : Nat
  nextJobId : Nat
deriving DecidableEq, Repr

/-- HTTP error outcomes raised by the projects API. -/
inductive ApiError where
  | notFound
  | badRequest
  | forbidden
deriving DecidableEq, Repr

/-- Body of the create-project endpoint (`projects.py`, lines 21-48):
reject with 400 when a project with the same name already exists for
the current user, otherwise create with owner = current user. -/
def createProject (db : MvpDb) (uid : Nat) (name : String)
    (description : Option String) (taskType : Option ConfigVal) :
    Except ApiError (MvpDb × Project) :=
  if (db.projects.find? (fun p => p.name = name ∧ p.userId = some uid)).isSome then
    .error .badRequest
  else
    let p : Project :=
      { id := db.nextProjectId, name := name, description := description,
        taskType := taskType, userId := some uid }
    .ok ({ db with projects := db.projects ++ [p],
                   nextProjectId := db.nextProjectId + 1 }, p)

/-- Body of the list-projects endpoint (`projects.py`, lines 51-85):
all projects whose `user_id` equals the current user's id, each paired
with its experiment count. A project with `user_id` NULL never matches
the SQL equality filter. -/
def listProjects (db : MvpDb) (uid : Nat) : List (Project × Nat) :=
  (db.projects.filter (fun p => p.userId = some uid)).map
    (fun p => (p, (db.trainingJobs.filter (fun j => j.projectId = some p.id)).length))

/-- Body of the get-project endpoint (`projects.py`, lines 88-104):
404 when the id is unknown, 403 when the project's `user_id` differs
from the current user's id. -/
def getProject (db : MvpDb) (projectId : Nat) (uid : Nat) :
    Except ApiError Project :=
  match db.projects.find? (fun p => p.id = projectId) with
  | none => .error .notFound
  | some p => if p.userId ≠ some uid then .error .forbidden else .ok p

/-- Body of the delete-project endpoint (`projects.py`, lines 148-181):
404 when the id is unknown, then 403 when the caller does not own the
project, then 400 when the project is named "Uncategorized"; otherwise
count the project's TrainingJob rows, delete the project, and report
the count. The cascade that removes the TrainingJob rows together with
the project is Modelled from the spec: the ORM relationship lives in a
`db/models.py` module that is not in the source tree, and the spec
states that deleting a project cascades to delete its TrainingJob
rows. -/
def deleteProject (db : MvpDb) (uid : Nat) (projectId : Nat) :
    Except ApiError (MvpDb × Nat) :=
  match db.projects.find? (fun p => p.id = projectId) with
  | none => .error .notFound
  | some p =>
    if p.userId ≠ some uid then .error .forbidden
    else if p.name = "Uncategorized" then .error .badRequest
    else
      let expCount :=
        (db.trainingJobs.filter (fun j => j.projectId = some projectId)).length
      let db' :=
        { db with projects := db.projects.filter (fun q => ¬ q.id = projectId),
                  trainingJobs :=
                    db.trainingJobs.filter (fun j => ¬ j.projectId = some projectId) }
      .ok (db', expCount)

/-- Session temp_data bag with the keys used by the action handlers
("config", "experiment", "selected_project_id", "available_projects").
An absent "experiment" key and an empty experiment dict behave alike in
the source (both are read through `get("experiment", ...)` and Python
truthiness), so the experiment slot is a plain dict. -/
structure TempData where
  config : ConfigDict
  experiment : ConfigDict
  selectedProjectId : Option Nat
  availableProjects : List (Nat × String)
deriving DecidableEq, Repr

/-- Empty temp_data bag. -/
def TempData.empty : TempData :=
  { config := [], experiment := [], selectedProjectId := none,
    availableProjects := [] }

/-- Result of one action handler: the new conversation state, the
returned temp_data, and the created training-job id when the action was
start_training. The user-facing message text is elided. -/
structure HandlerResult where
  newState : ConversationState
  tempData : TempData
  trainingJobId : Option Nat
deriving DecidableEq, Repr

/-- Python `a or b` on an optional dict (`action_handlers.py`, lines
420-421): `None` and the empty dict fall back to `b`. -/
def pyOrDict (a : Option ConfigDict) (b : ConfigDict) : ConfigDict :=
  match a with
  | some d => if d = [] then b else d
  | none => b

/-- Python `a or b` on an optional integer (`action_handlers.py`, line
422): `None` and `0` fall back to `b`. -/
def pyOrNat (a : Option Nat) (b : Option Nat) : Option Nat :=
  match a with
  | some n => if n = 0 then b else some n
  | none => b

/-- Pre-handler accumulated config of `handle_action`
(`action_handlers.py`, lines 63-107): the session's stored config,
updated with the LLM's `current_config` when that is truthy (LLM values
overwrite), then passed through `_extract_from_user_message`. The
extraction pass is supplied as a function parameter `extractFn` because
its output depends on the raw user message and, through
`os.path.exists`, on the host filesystem; the theorems below hold for
every extraction function. -/
def preHandlerConfig (sessionCfg : ConfigDict) (llmCfg : Option ConfigDict)
    (extractFn : ConfigDict → ConfigDict) : ConfigDict :=
  let merged :=
    match llmCfg with
    | some c => if c = [] then sessionCfg else pyMerge sessionCfg c
    | none => sessionCfg
  extractFn merged

/-- Post-handler merge of `handle_action` (`action_handlers.py`, line
139): `final_config = (**handler_config, **existing_config)` — the
extracted config wins over the handler's returned config. -/
def finalMergedConfig (handlerCfg extracted : ConfigDict) : ConfigDict :=
  pyMerge handlerCfg extracted

/-- Body of `_handle_create_project` (`action_handlers.py`, lines
267-301): create a Project with the payload's name and description and
the accumulated config's task_type — no owner is set and no duplicate
check is performed — then store its id as selected_project_id and move
to CONFIRMING. -/
def handleCreateProject (db : MvpDb) (td : TempData) (projectName : String)
    (projectDescription : Option String) : MvpDb × HandlerResult :=
  let p : Project :=
    { id := db.nextProjectId, name := projectName,
      description := projectDescription,
      taskType := dlookup td.config "task_type", userId := none }
  let db' := { db with projects := db.projects ++ [p],
                       nextProjectId := db.nextProjectId + 1 }
  let td' := { td with selectedProjectId := some p.id }
  (db', { newState := .confirming, tempData := td', trainingJobId := none })

/-- Body of `_handle_skip_project` (`action_handlers.py`, lines
355-390): fetch the first project named "Uncategorized" (no owner
filter), lazily creating it — without an owner — when absent; store its
id and move to CONFIRMING. -/
def handleSkipProject (db : MvpDb) (td : TempData) : MvpDb × HandlerResult :=
  match db.projects.find? (fun p => p.name = "Uncategorized") with
  | some unc =>
      (db, { newState := .confirming,
             tempData := { td with selectedProjectId := some unc.id },
             trainingJobId := none })
  | none =>
      let p : Project :=
        { id := db.nextProjectId, name := "Uncategorized",
          description := some "프로젝트 없이 진행한 실험들",
          taskType := none, userId := none }
      let db' := { db with projects := db.projects ++ [p],
                           nextProjectId := db.nextProjectId + 1 }
      (db', { newState := .confirming,
              tempData := { td with selectedProjectId := some p.id },
              trainingJobId := none })

/-- Action payload fields read by `_handle_start_training`
(`action_handlers.py`, lines 420-422). -/
structure StartTrainingPayload where
  config : Option ConfigDict
  experiment : Option ConfigDict
  projectId : Option Nat
deriving DecidableEq, Repr

/-- Body of `_handle_start_training` (`action_handlers.py`, lines
412-457): resolve config / experiment / project id from the payload
with Python-`or` fallback to temp_data, create one TrainingJob
(dataset_format defaulting to "imagefolder", output_dir
`./outputs/(session_id)`, status "pending"), return empty temp_data,
COMPLETE, and the new job id. -/
def handleStartTraining (db : MvpDb) (sessionId : Nat) (td : TempData)
    (payload : StartTrainingPayload) : MvpDb × HandlerResult :=
  let cfg := pyOrDict payload.config td.config
  let exper := pyOrDict payload.experiment td.experiment
  let pid := pyOrNat payload.projectId td.selectedProjectId
  let job : TrainingJob :=
    { id := db.nextJobId
      sessionId := sessionId
      projectId := pid
      framework := dlookup cfg "framework"
      modelName := dlookup cfg "model_name"
      taskType := dlookup cfg "task_type"
      datasetPath := dlookup cfg "dataset_path"
      datasetFormat := (dlookup cfg "dataset_format").getD (.s "imagefolder")
      numClasses := dlookup cfg "num_classes"
      epochs := dlookup cfg "epochs"
      batchSize := dlookup cfg "batch_size"
      learningRate := dlookup cfg "learning_rate"
      outputDir := "./outputs/" ++ toString sessionId
      experimentName := dlookup exper "name"
      tags := dlookup exper "tags"
      notes := dlookup exper "notes"
      status := "pending" }
  let db' := { db with trainingJobs := db.trainingJobs ++ [job],
                       nextJobId := db.nextJobId + 1 }
  (db', { newState := .complete, tempData := TempData.empty,
          trainingJobId := some job.id })

/-- The `handle_action` pipeline (`action_handlers.py`, lines 61-146)
specialised to the start_training action: compute the pre-handler
accumulated config, store it into the session's temp_data, run
`_handle_start_training`, then overwrite the returned temp_data's
"config" entry with the post-handler merge of the handler's config and
the accumulated config. -/
def handleActionStartTraining (db : MvpDb) (sessionId : Nat) (td : TempData)
    (llmCfg : Option ConfigDict) (extractFn : ConfigDict → ConfigDict)
    (payload : StartTrainingPayload) : MvpDb × HandlerResult :=
  let existing := preHandlerConfig td.config llmCfg extractFn
  let td1 := { td with config := existing }
  let (db', result) := handleStartTraining db sessionId td1 payload
  let finalCfg := finalMergedConfig result.tempData.config existing
  (db', { result with tempData := { result.tempData with config := finalCfg } })

end Mvp

namespace Platform

/-- JobStatus enum of the Platform backend (`db/models.py`, lines
19-26). -/
inductive JobStatus where
  | pending
  | running
  | completed
  | failed
  | cancelled
deriving DecidableEq, Repr

/-- TrainingJob row of the Platform backend (`db/models.py`, lines
29-76), restricted to the columns the callback endpoint touches.
Timestamps are modelled as natural numbers. -/
structure TrainingJob where
  id : Nat
  status : JobStatus
  progress : Rat
  message : Option String
  checkpointS3Uri : Option String
  error : Option String
  updatedAt : Nat
  startedAt : Option Nat
  completedAt : Option Nat
deriving DecidableEq, Repr

/-- Metrics payload of a callback: a JSON object of floats, modelled as
an association list. -/
abbrev MetricsDict := List (String × Rat)

/-- Metrics dict lookup (first matching key, like a Python dict). -/
def mlookup (m : MetricsDict) (k : String) : Option Rat :=
  (m.find? (fun p => p.1 = k)).map (·.2)

/-- TrainingMetric row (`db/models.py`, lines 82-108). -/
structure TrainingMetric where
  jobId : Nat
  epoch : Rat
  step : Option Rat
  loss : Option Rat
  accuracy : Option Rat
  metrics : MetricsDict
deriving DecidableEq, Repr

/-- TrainingUpdate callback schema (`schemas/training.py`, lines
37-46). -/
structure TrainingUpdate where
  status : JobStatus
  progress : Rat
  message : Option String
  metrics : Option MetricsDict
  checkpointS3Uri : Option String
  error : Option String
deriving DecidableEq, Repr

/-- The body of the `training_callback` endpoint applied to a job that
was found (`api/training.py`, lines 171-202), returning the updated job
together with the TrainingMetric rows appended by this callback.
`now` stands for `datetime.utcnow()`. -/
def trainingCallback (job : TrainingJob) (u : TrainingUpdate) (now : Nat) :
    TrainingJob × List TrainingMetric :=
  let j1 : TrainingJob :=
    { job with status := u.status, progress := u.progress, updatedAt := now }
  let j2 := if strTruthy u.message then { j1 with message := u.message } else j1
  let j3 := if strTruthy u.checkpointS3Uri then
      { j2 with checkpointS3Uri := u.checkpointS3Uri } else j2
  let j4 := if strTruthy u.error then { j3 with error := u.error } else j3
  let j5 := if u.status = .running ∧ j4.startedAt = none then
      { j4 with startedAt := some now } else j4
  let j6 := if u.status = .completed ∨ u.status = .failed then
      { j5 with completedAt := some now } else j5
  let newMetrics :=
    match u.metrics with
    | some m =>
        if m = [] then []
        else [{ jobId := job.id
                epoch := (mlookup m "epoch").getD 0
                step := mlookup m "step"
                loss := mlookup m "loss"
                accuracy := mlookup m "accuracy"
                metrics := m }]
    | none => []
  (j6, newMetrics)

/-- ExportJob status vocabulary.
Modelled from the spec: `models.ExportJobStatus` is referenced by
`api/export.py` but its declaration module is not in the source tree;
the spec lists status values PENDING, RUNNING, COMPLETED, FAILED. -/
inductive ExportJobStatus where
  | pending
  | running
  | completed
  | failed
deriving DecidableEq, Repr

/-- Training-job row as seen by the export API (`api/export.py` reads
`id`, `best_checkpoint_path`, `framework`, `task_type`, `model_name`).
Modelled from the spec: the declaring module of this integer-keyed
model is not in the source tree. -/
structure ExpTrainingJob where
  id : Nat
  bestCheckpointPath : Option String
  framework : String
  taskType : String
  modelName : String
deriving DecidableEq, Repr

/-- ExportJob row.
Modelled from the spec: `models.ExportJob` is referenced by
`api/export.py` but declared in a module not in the source tree; fields
follow the spec's ExportJob entry (id, training_job_id, export_format,
checkpoint_path, version, is_default, framework, task_type, model_name,
status). -/
structure ExportJob where
  id : Nat
  trainingJobId : Nat
  exportFormat : String
  checkpointPath : String
  version : Nat
  isDefault : Bool
  framework : String
  taskType : String
  modelName : String
  status : ExportJobStatus
deriving DecidableEq, Repr

/-- ExportJobRequest as used by `create_export_job` (`api/export.py`
reads `training_job_id`, `checkpoint_path`, `export_format`,
`set_as_default`, plus config blobs carried through opaquely). -/
structure ExportJobRequest where
  trainingJobId : Nat
  exportFormat : String
  checkpointPath : Option String
  setAsDefault : Bool
deriving DecidableEq, Repr

/-- HTTP error outcomes raised by the export and deployment endpoints. -/
inductive ApiError where
  | notFound
  | badRequest
deriving DecidableEq, Repr

/-- Database state visible to the export and deployment endpoints. -/
structure ExportDb where
  trainingJobs : List ExpTrainingJob
  exportJobs : List ExportJob
  nextExportId : Nat
deriving DecidableEq, Repr

/-- The sibling-clearing update of `create_export_job` (`api/export.py`,
lines 235-239): a row of the same training job whose `is_default` flag
is set has the flag cleared; every other row is untouched. -/
def clearDefault (tjid : Nat) (e : ExportJob) : ExportJob :=
  if e.trainingJobId = tjid ∧ e.isDefault then { e with isDefault := false }
  else e

/-- Fallback to the training job's best checkpoint (`api/export.py`,
lines 212-218): a missing or empty best checkpoint is a 400. -/
def resolveBestCheckpoint : Option String → Except ApiError String
  | some b => if b = "" then .error .badRequest else .ok b
  | none => .error .badRequest

/-- Checkpoint resolution of `create_export_job` (`api/export.py`,
lines 210-218): use the request's checkpoint path when truthy,
otherwise fall back to the training job's best checkpoint. -/
def resolveCheckpoint (reqCkpt bestCkpt : Option String) :
    Except ApiError String :=
  match reqCkpt with
  | some c => if c = "" then resolveBestCheckpoint bestCkpt else .ok c
  | none => resolveBestCheckpoint bestCkpt

/-- The persistence step of `create_export_job` (`api/export.py`, lines
228-260) once the training job and the checkpoint are resolved: version
is the count of existing exports for this training job plus one, the
sibling defaults are cleared when `set_as_default` was requested, and
the new PENDING export — default when requested or first — is
appended. -/
def exportCore (db : ExportDb) (req : ExportJobRequest)
    (tj : ExpTrainingJob) (ckpt : String) : ExportDb × ExportJob :=
  let existing := db.exportJobs.filter (fun e => e.trainingJobId = req.trainingJobId)
  let nextVersion := existing.length + 1
  let cleared :=
    if req.setAsDefault then db.exportJobs.map (clearDefault req.trainingJobId)
    else db.exportJobs
  let newJob : ExportJob :=
    { id := db.nextExportId
      trainingJobId := req.trainingJobId
      exportFormat := req.exportFormat
      checkpointPath := ckpt
      version := nextVersion
      isDefault := req.setAsDefault || nextVersion = 1
      framework := tj.framework
      taskType := tj.taskType
      modelName := tj.modelName
      status := .pending }
  ({ db with exportJobs := cleared ++ [newJob],
             nextExportId := db.nextExportId + 1 }, newJob)

/-- Body of `create_export_job` (`api/export.py`, lines 198-267):
look up the training job (404 when absent), resolve the checkpoint from
the request or the job's best checkpoint (400 when neither is truthy),
then persist via `exportCore`. -/
def createExportJob (db : ExportDb) (req : ExportJobRequest) :
    Except ApiError (ExportDb × ExportJob) :=
  match db.trainingJobs.find? (fun tj => tj.id = req.trainingJobId) with
  | none => .error .notFound
  | some tj =>
    match resolveCheckpoint req.checkpointPath tj.bestCheckpointPath with
    | .error err => .error err
    | .ok ckpt => .ok (exportCore db req tj ckpt)

/-- Sequential application of create-export-job requests, modelling a
sequence of HTTP calls to the endpoint: a request whose processing
raises an error leaves the database unchanged. -/
def createExportJobsFold (db : ExportDb) (reqs : List ExportJobRequest) :
    ExportDb :=
  reqs.foldl (fun d r =>
    match createExportJob d r with
    | .ok (d', _) => d'
    | .error _ => d) db

/-- Export-table invariant for one training job: every row belongs to
the job, the versions read 1, 2, ..., n in creation order, and at most
one row carries the default flag. -/
def exportsOk (tjid : Nat) (l : List ExportJob) : Prop :=
  (∀ e ∈ l, e.trainingJobId = tjid) ∧
  (l.map (fun e => e.version) = List.range' 1 l.length) ∧
  l.countP (fun e => e.isDefault) ≤ 1

/-- Example training job for concrete witness states. -/
def exTj : ExpTrainingJob :=
  { id := 1, bestCheckpointPath := some "best.pt",
    framework := "ultralytics", taskType := "object_detection",
    modelName := "yolo11n" }

/-- Example export database: one training job, no exports yet. -/
def exExportDb : ExportDb :=
  { trainingJobs := [exTj], exportJobs := [], nextExportId := 1 }

/-- Example request sequence: two plain exports followed by one with
set_as_default. -/
def exReqs : List ExportJobRequest :=
  [{ trainingJobId := 1, exportFormat := "onnx", checkpointPath := none,
     setAsDefault := false },
   { trainingJobId := 1, exportFormat := "onnx", checkpointPath := none,
     setAsDefault := false },
   { trainingJobId := 1, exportFormat := "tensorrt", checkpointPath := none,
     setAsDefault := true }]

/-- Deployment status vocabulary.
Modelled from the spec: `models.DeploymentStatus` is referenced by
`api/export.py` but declared in a module not in the source tree; the
spec only pins PENDING as the creation status. -/
inductive DeploymentStatus where
  | pending
  | running
  | failed
deriving DecidableEq, Repr

/-- DeploymentTarget row.
Modelled from the spec: `models.DeploymentTarget` is referenced by
`api/export.py` but declared in a module not in the source tree; fields
follow the spec's DeploymentTarget entry. -/
structure DeploymentTarget where
  id : Nat
  exportJobId : Nat
  trainingJobId : Nat
  deploymentType : String
  deploymentName : String
  status : DeploymentStatus
deriving DecidableEq, Repr

/-- DeploymentRequest as read by `create_deployment` (`api/export.py`,
lines 392-403). -/
structure DeploymentRequest where
  exportJobId : Nat
  deploymentType : String
  deploymentName : String
deriving DecidableEq, Repr

/-- Database state visible to the deployment endpoint. -/
structure DeployDb where
  exportJobs : List ExportJob
  deployments : List DeploymentTarget
  nextDeploymentId : Nat
deriving DecidableEq, Repr

/-- Body of `create_deployment` (`api/export.py`, lines 373-414): 404
when the export job is unknown, 400 when its status is not COMPLETED,
otherwise persist a PENDING DeploymentTarget. -/
def createDeployment (db : DeployDb) (req : DeploymentRequest) :
    Except ApiError (DeployDb × DeploymentTarget) :=
  match db.exportJobs.find? (fun e => e.id = req.exportJobId) with
  | none => .error .notFound
  | some e =>
    if e.status ≠ .completed then .error .badRequest
    else
      let d : DeploymentTarget :=
        { id := db.nextDeploymentId
          exportJobId := req.exportJobId
          trainingJobId := e.trainingJobId
          deploymentType := req.deploymentType
          deploymentName := req.deploymentName
          status := .pending }
      .ok ({ db with deployments := db.deployments ++ [d],
                     nextDeploymentId := db.nextDeploymentId + 1 }, d)

end Platform

namespace Mvp

/-- Example training-job row used by concrete witness states: only the
id and project id vary, everything else is fixed filler. -/
def exJob (id : Nat) (pid : Option Nat) : TrainingJob :=
  { id := id, sessionId := 1, projectId := pid, framework := none,
    modelName := none, taskType := none, datasetPath := none,
    datasetFormat := .s "imagefolder", numClasses := none, epochs := none,
    batchSize := none, learningRate := none, outputDir := "",
    experimentName := none, tags := none, notes := none,
    status := "pending" }

/-- Example database holding a single ownerless project named
"Uncategorized" (as the chat handlers create it). -/
def exUncatDb : MvpDb :=
  { projects := [{ id := 1, name := "Uncategorized", description := none,
                   taskType := none, userId := none }],
    trainingJobs := [], nextProjectId := 2, nextJobId := 1 }

/-- Example database for the delete-project witness: a project owned by
user 1 with three training jobs, plus one job of another project. -/
def exDeleteDb : MvpDb :=
  { projects := [{ id := 5, name := "Vision", description := none,
                   taskType := none, userId := some 1 }],
    trainingJobs := [exJob 1 (some 5), exJob 2 (some 5), exJob 3 (some 5),
                     exJob 4 (some 8)],
    nextProjectId := 6, nextJobId := 5 }

/-- Example empty database. -/
def exEmptyDb : MvpDb :=
  { projects := [], trainingJobs := [], nextProjectId := 1, nextJobId := 1 }

-- Lookup distributes over list append, preferring the front part.
theorem dlookup_append (l1 l2 : ConfigDict) (k : String) :
    dlookup (l1 ++ l2) k = (dlookup l1 k).or (dlookup l2 k) := by
  unfold dlookup
  rw [List.find?_append]
  cases l1.find? (fun p => decide (p.1 = k)) <;> simp

-- Lookup misses when no key of the dict matches.
theorem dlookup_eq_none {l : ConfigDict} {k : String}
    (h : ∀ x ∈ l, x.1 ≠ k) : dlookup l k = none := by
  unfold dlookup
  have hn : l.find? (fun p => decide (p.1 = k)) = none :=
    List.find?_eq_none.mpr (fun x hx hxk => h x hx (of_decide_eq_true hxk))
  rw [hn]
  rfl

-- Lookup in a Python dict merge: a binding of the right-hand dict survives.
theorem dlookup_pyMerge_right {d1 d2 : ConfigDict} {k : String} {v : ConfigVal}
    (h : dlookup d2 k = some v) : dlookup (pyMerge d1 d2) k = some v := by
  unfold pyMerge
  rw [dlookup_append]
  have hfront : dlookup (d1.filter fun p => (dlookup d2 p.1).isNone) k = none := by
    apply dlookup_eq_none
    intro x hx hxk
    have hmem := (List.mem_filter.mp hx).2
    rw [hxk, h] at hmem
    simp at hmem
  rw [hfront, Option.none_or]
  exact h

-- A find? over an appended list when the front part has no match.
theorem find?_append_of_front_none {α : Type} (p : α → Bool) {l1 : List α}
    (l2 : List α) (h : l1.find? p = none) : (l1 ++ l2).find? p = l2.find? p := by
  rw [List.find?_append, h, Option.none_or]

-- Every entry returned by the owner-filtered project list is owned by
-- the requesting user.
theorem userId_of_mem_listProjects {db : MvpDb} {uid : Nat}
    {x : Project × Nat} (h : x ∈ listProjects db uid) :
    x.1.userId = some uid := by
  unfold listProjects at h
  obtain ⟨q, hq, rfl⟩ := List.mem_map.mp h
  exact of_decide_eq_true (List.mem_filter.mp hq).2

-- The nine field projections of fieldPresent, one per field name.
theorem fieldPresent_framework (tc : TrainingConfig) :
    tc.fieldPresent "framework" = tc.framework.isSome := rfl

theorem fieldPresent_model_name (tc : TrainingConfig) :
    tc.fieldPresent "model_name" = tc.modelName.isSome := rfl

theorem fieldPresent_task_type (tc : TrainingConfig) :
    tc.fieldPresent "task_type" = tc.taskType.isSome := rfl

theorem fieldPresent_dataset_path (tc : TrainingConfig) :
    tc.fieldPresent "dataset_path" = tc.datasetPath.isSome := rfl

theorem fieldPresent_epochs (tc : TrainingConfig) :
    tc.fieldPresent "epochs" = tc.epochs.isSome := rfl

theorem fieldPresent_batch_size (tc : TrainingConfig) :
    tc.fieldPresent "batch_size" = tc.batchSize.isSome := rfl

theorem fieldPresent_learning_rate (tc : TrainingConfig) :
    tc.fieldPresent "learning_rate" = tc.learningRate.isSome := rfl

end Mvp

/-- C3: the detection/segmentation/pose adapter's weight-filename
resolution is claimed to be idempotent in the task suffix; the code of
`UltralyticsAdapter.prepare_model` instead appends the suffix
unconditionally, so model_name "yolo11n-seg" with task
instance_segmentation resolves to "yolo11n-seg-seg.pt", not the
"yolo11n-seg.pt" required by the claim and by the repository's own
regression tests. -/
theorem c3_suffix_duplication_bug :
    Ultra.prepareModelPath "yolo11n-seg" .instanceSegmentation =
      "yolo11n-seg-seg.pt" ∧
    Ultra.prepareModelPath "yolo11n-seg" .instanceSegmentation ≠
      "yolo11n-seg.pt" := by
  constructor
  · rfl
  · decide

/-- C5: `is_complete` is true exactly when the seven required fields
are all present, `get_missing_fields` returns exactly the absent
required fields in the fixed list order, the missing list is empty
exactly when `is_complete` holds, and the optional `num_classes` and
`dataset_format` fields affect neither result. -/
theorem c5_training_config_completeness (tc : Mvp.TrainingConfig) :
    (tc.isComplete =
      (tc.framework.isSome && tc.modelName.isSome && tc.taskType.isSome &&
       tc.datasetPath.isSome && tc.epochs.isSome && tc.batchSize.isSome &&
       tc.learningRate.isSome)) ∧
    (tc.getMissingFields =
      (if tc.framework.isSome then [] else ["framework"]) ++
      (if tc.modelName.isSome then [] else ["model_name"]) ++
      (if tc.taskType.isSome then [] else ["task_type"]) ++
      (if tc.datasetPath.isSome then [] else ["dataset_path"]) ++
      (if tc.epochs.isSome then [] else ["epochs"]) ++
      (if tc.batchSize.isSome then [] else ["batch_size"]) ++
      (if tc.learningRate.isSome then [] else ["learning_rate"])) ∧
    (tc.getMissingFields.isEmpty = tc.isComplete) ∧
    (∀ nc df,
      Mvp.TrainingConfig.isComplete
        { tc with numClasses := nc, datasetFormat := df } = tc.isComplete ∧
      Mvp.TrainingConfig.getMissingFields
        { tc with numClasses := nc, datasetFormat := df } =
          tc.getMissingFields) := by
  obtain ⟨f, m, t, d, df, nc, e, b, l⟩ := tc
  cases f <;> cases m <;> cases t <;> cases d <;> cases e <;> cases b <;> cases l <;>
    simp [Mvp.TrainingConfig.isComplete, Mvp.TrainingConfig.getMissingFields,
      Mvp.requiredFields, Mvp.fieldPresent_framework, Mvp.fieldPresent_model_name,
      Mvp.fieldPresent_task_type, Mvp.fieldPresent_dataset_path,
      Mvp.fieldPresent_epochs, Mvp.fieldPresent_batch_size,
      Mvp.fieldPresent_learning_rate]

/-- C1, counterexample: a callback payload that supplies an empty
string for `message` is a supplied field, yet the endpoint's truthiness
check leaves the previously stored message untouched, contradicting the
claim that a supplied field always overwrites the stored one. -/
theorem c1_empty_string_counterexample :
    (Platform.trainingCallback
      { id := 1, status := .pending, progress := 0, message := some "old",
        checkpointS3Uri := some "olduri", error := some "olderr",
        updatedAt := 0, startedAt := none, completedAt := none }
      { status := .running, progress := 2/5, message := some "",
        metrics := none, checkpointS3Uri := none, error := none }
      5).1.message = some "old" := by
  decide

/-- C1, amended: the callback overwrites status, progress, and
updated_at unconditionally, and overwrites message, checkpoint_s3_uri,
and error exactly when the payload supplies a truthy (present and
non-empty) value for them, leaving the stored value untouched
otherwise. -/
theorem c1_callback_field_updates (job : Platform.TrainingJob)
    (u : Platform.TrainingUpdate) (now : Nat) :
    ((Platform.trainingCallback job u now).1.status = u.status) ∧
    ((Platform.trainingCallback job u now).1.progress = u.progress) ∧
    ((Platform.trainingCallback job u now).1.updatedAt = now) ∧
    ((Platform.trainingCallback job u now).1.message =
      if strTruthy u.message then u.message else job.message) ∧
    ((Platform.trainingCallback job u now).1.checkpointS3Uri =
      if strTruthy u.checkpointS3Uri then u.checkpointS3Uri
      else job.checkpointS3Uri) ∧
    ((Platform.trainingCallback job u now).1.error =
      if strTruthy u.error then u.error else job.error) := by
  obtain ⟨ji, js, jp, jm, jc, je, ju, jsa, jca⟩ := job
  obtain ⟨us, up, um, umt, uc, ue⟩ := u
  by_cases h1 : strTruthy um <;>
    by_cases h2 : strTruthy uc <;>
      by_cases h3 : strTruthy ue <;>
        cases us <;> cases jsa <;>
          simp [Platform.trainingCallback, h1, h2, h3]

/-- C7: creating a deployment fails with NotFound when the referenced
export job does not exist; fails with BadRequest — creating no
DeploymentTarget row — when the export job exists with a status other
than COMPLETED; and persists a PENDING DeploymentTarget when the export
job is COMPLETED. -/
theorem c7_deployment_precondition (db : Platform.DeployDb)
    (req : Platform.DeploymentRequest) :
    (db.exportJobs.find? (fun e => e.id = req.exportJobId) = none →
      Platform.createDeployment db req = .error .notFound) ∧
    (∀ e, db.exportJobs.find? (fun e => e.id = req.exportJobId) = some e →
      e.status ≠ .completed →
      Platform.createDeployment db req = .error .badRequest) ∧
    (∀ e, db.exportJobs.find? (fun e => e.id = req.exportJobId) = some e →
      e.status = .completed →
      ∃ d db', Platform.createDeployment db req = .ok (db', d) ∧
        d.status = .pending ∧
        d.exportJobId = req.exportJobId ∧
        d.trainingJobId = e.trainingJobId ∧
        db'.deployments = db.deployments ++ [d] ∧
        db'.exportJobs = db.exportJobs) := by
  refine ⟨?_, ?_, ?_⟩
  · intro h
    unfold Platform.createDeployment
    rw [h]
  · intro e he hs
    unfold Platform.createDeployment
    rw [he]
    dsimp only
    rw [if_pos hs]
  · intro e he hs
    unfold Platform.createDeployment
    rw [he]
    dsimp only
    rw [if_neg (by simp [hs])]
    exact ⟨_, _, rfl, rfl, rfl, rfl, rfl, rfl⟩

/-- C7 witness: a concrete COMPLETED export job yields a persisted
PENDING deployment. -/
theorem c7_deployment_precondition_witness :
    ∃ d db',
      Platform.createDeployment
        { exportJobs := [{ id := 1, trainingJobId := 9, exportFormat := "onnx",
                           checkpointPath := "best.pt", version := 1,
                           isDefault := true, framework := "ultralytics",
                           taskType := "object_detection",
                           modelName := "yolo11n", status := .completed }],
          deployments := [], nextDeploymentId := 1 }
        { exportJobId := 1, deploymentType := "download",
          deploymentName := "d1" } = .ok (db', d) ∧
      d.status = .pending ∧
      d.exportJobId = 1 ∧
      d.trainingJobId = 9 ∧
      db'.deployments = [] ++ [d] ∧
      db'.exportJobs =
        ({ exportJobs := [{ id := 1, trainingJobId := 9, exportFormat := "onnx",
                            checkpointPath := "best.pt", version := 1,
                            isDefault := true, framework := "ultralytics",
                            taskType := "object_detection",
                            modelName := "yolo11n", status := .completed }],
           deployments := [], nextDeploymentId := 1 } : Platform.DeployDb).exportJobs :=
  (c7_deployment_precondition
    { exportJobs := [{ id := 1, trainingJobId := 9, exportFormat := "onnx",
                       checkpointPath := "best.pt", version := 1,
                       isDefault := true, framework := "ultralytics",
                       taskType := "object_detection",
                       modelName := "yolo11n", status := .completed }],
      deployments := [], nextDeploymentId := 1 }
    { exportJobId := 1, deploymentType := "download",
      deploymentName := "d1" }).2.2
    { id := 1, trainingJobId := 9, exportFormat := "onnx",
      checkpointPath := "best.pt", version := 1,
      isDefault := true, framework := "ultralytics",
      taskType := "object_detection",
      modelName := "yolo11n", status := .completed }
    (by decide) (by decide)

/-- C4: the config stored after `handle_action` completes — the merge
of the handler's returned config with the pre-handler accumulated
config (session config updated with the LLM's current_config and then
passed through fallback extraction) — preserves every binding of the
accumulated config: no pre-handler key is dropped, and an extracted
value wins over any same-named value the handler returned. Holds for
every extraction function. -/
theorem c4_extraction_priority (sessionCfg : Mvp.ConfigDict)
    (llmCfg : Option Mvp.ConfigDict)
    (extractFn : Mvp.ConfigDict → Mvp.ConfigDict)
    (handlerCfg : Mvp.ConfigDict) (k : String) (v : Mvp.ConfigVal)
    (h : Mvp.dlookup (Mvp.preHandlerConfig sessionCfg llmCfg extractFn) k =
      some v) :
    Mvp.dlookup (Mvp.finalMergedConfig handlerCfg
      (Mvp.preHandlerConfig sessionCfg llmCfg extractFn)) k = some v :=
  Mvp.dlookup_pyMerge_right h

/-- C4 witness: with accumulated config (framework: timm, model_name:
resnet18), an extraction that adds a dataset path, and a handler that
proposes a different dataset path, the final config keeps the extracted
path. -/
theorem c4_extraction_priority_witness :
    Mvp.dlookup
      (Mvp.finalMergedConfig [("dataset_path", .s "/other")]
        (Mvp.preHandlerConfig
          [("framework", .s "timm"), ("model_name", .s "resnet18")] none
          (fun c => Mvp.pyMerge c [("dataset_path", .s "/data/dataset")])))
      "dataset_path" = some (.s "/data/dataset") :=
  c4_extraction_priority _ _ _ _ _ _ (by decide)

/-- C8, counterexample: the create_project action handler performs no
duplicate-name check — with an existing project named "P" of the same
(absent) owner, handling create_project for "P" adds a second row
instead of rejecting with BadRequest. -/
theorem c8_handler_duplicate_counterexample :
    ((Mvp.handleCreateProject
        { projects := [{ id := 1, name := "P", description := none,
                         taskType := none, userId := none }],
          trainingJobs := [], nextProjectId := 2, nextJobId := 1 }
        Mvp.TempData.empty "P" none).1.projects.map (fun p => p.name)) =
      ["P", "P"] := by
  decide

/-- C8, amended: the create-project endpoint rejects a duplicate name
of the same owner with BadRequest leaving the table unchanged, and
otherwise appends a project owned by the caller; the create_project
action handler performs no duplicate check and always appends an
ownerless project. -/
theorem c8_project_name_uniqueness (db : Mvp.MvpDb) (uid : Nat)
    (name : String) (description : Option String)
    (tt : Option Mvp.ConfigVal) (td : Mvp.TempData) (pdesc : Option String) :
    ((db.projects.find? (fun p => p.name = name ∧ p.userId = some uid)).isSome
        = true →
      Mvp.createProject db uid name description tt = .error .badRequest) ∧
    ((db.projects.find? (fun p => p.name = name ∧ p.userId = some uid)).isSome
        = false →
      ∃ p db', Mvp.createProject db uid name description tt = .ok (db', p) ∧
        p.userId = some uid ∧ p.name = name ∧
        db'.projects = db.projects ++ [p]) ∧
    ((Mvp.handleCreateProject db td name pdesc).1.projects =
      db.projects ++
        [{ id := db.nextProjectId, name := name, description := pdesc,
           taskType := Mvp.dlookup td.config "task_type", userId := none }]) := by
  refine ⟨?_, ?_, ?_⟩
  · intro h
    unfold Mvp.createProject
    rw [if_pos h]
  · intro h
    unfold Mvp.createProject
    rw [if_neg (by rw [h]; simp)]
    exact ⟨_, _, rfl, rfl, rfl, rfl⟩
  · rfl

/-- C8 witness: on an empty database the endpoint create succeeds and
appends a project owned by user 1. -/
theorem c8_project_name_uniqueness_witness :
    ∃ p db', Mvp.createProject Mvp.exEmptyDb 1 "Q" none none = .ok (db', p) ∧
      p.userId = some 1 ∧ p.name = "Q" ∧
      db'.projects = Mvp.exEmptyDb.projects ++ [p] :=
  (c8_project_name_uniqueness Mvp.exEmptyDb 1 "Q" none none
    Mvp.TempData.empty none).2.1 (by decide)

/-- C9, counterexample: deleting the ownerless project named
"Uncategorized" as user 7 is rejected with Forbidden — the ownership
check runs before the name check — not with the BadRequest the claim
requires for every caller. -/
theorem c9_uncategorized_forbidden_counterexample :
    Mvp.deleteProject Mvp.exUncatDb 7 1 = .error .forbidden ∧
    Mvp.deleteProject Mvp.exUncatDb 7 1 ≠ .error .badRequest := by
  have h1 : Mvp.deleteProject Mvp.exUncatDb 7 1 = .error .forbidden := rfl
  exact ⟨h1, by rw [h1]; simp⟩

/-- C9, amended: delete-project is 404 on an unknown id, then
Forbidden when the caller does not own the project, then BadRequest
when the caller-owned project is named "Uncategorized"; deleting any
other owned project removes it with all of its TrainingJob rows and
reports exactly their number. -/
theorem c9_delete_project (db : Mvp.MvpDb) (uid : Nat) (pid : Nat) :
    (db.projects.find? (fun p => p.id = pid) = none →
      Mvp.deleteProject db uid pid = .error .notFound) ∧
    (∀ p, db.projects.find? (fun p => p.id = pid) = some p →
      p.userId ≠ some uid →
      Mvp.deleteProject db uid pid = .error .forbidden) ∧
    (∀ p, db.projects.find? (fun p => p.id = pid) = some p →
      p.userId = some uid → p.name = "Uncategorized" →
      Mvp.deleteProject db uid pid = .error .badRequest) ∧
    (∀ p, db.projects.find? (fun p => p.id = pid) = some p →
      p.userId = some uid → p.name ≠ "Uncategorized" →
      ∃ db', Mvp.deleteProject db uid pid = .ok (db',
          (db.trainingJobs.filter (fun j => j.projectId = some pid)).length) ∧
        db'.projects = db.projects.filter (fun q => ¬ q.id = pid) ∧
        db'.trainingJobs =
          db.trainingJobs.filter (fun j => ¬ j.projectId = some pid)) := by
  refine ⟨?_, ?_, ?_, ?_⟩
  · intro h
    unfold Mvp.deleteProject
    rw [h]
  · intro p hp hne
    unfold Mvp.deleteProject
    rw [hp]
    dsimp only
    rw [if_pos hne]
  · intro p hp hu hname
    unfold Mvp.deleteProject
    rw [hp]
    dsimp only
    rw [if_neg (by simp [hu]), if_pos hname]
  · intro p hp hu hname
    unfold Mvp.deleteProject
    rw [hp]
    dsimp only
    rw [if_neg (by simp [hu]), if_neg hname]
    exact ⟨_, rfl, rfl, rfl⟩

/-- C9 witness: user 1 deletes their project with three training jobs;
deleted_experiments is 3 and the project's jobs are gone. -/
theorem c9_delete_project_witness :
    ∃ db', Mvp.deleteProject Mvp.exDeleteDb 1 5 = .ok (db',
        (Mvp.exDeleteDb.trainingJobs.filter
          (fun j => j.projectId = some 5)).length) ∧
      db'.projects = Mvp.exDeleteDb.projects.filter (fun q => ¬ q.id = 5) ∧
      db'.trainingJobs = Mvp.exDeleteDb.trainingJobs.filter
        (fun j => ¬ j.projectId = some 5) :=
  (c9_delete_project Mvp.exDeleteDb 1 5).2.2.2
    { id := 5, name := "Vision", description := none,
      taskType := none, userId := some 1 }
    (by decide) (by decide) (by decide)

/-- C10: every project created by the chat handlers (create_project,
and skip_project's lazily created "Uncategorized") is stored with no
owner; consequently it never appears in the owner-filtered project list
of any user, and a direct get of it by id is rejected with Forbidden. -/
theorem c10_chat_projects_unowned (db : Mvp.MvpDb) (td : Mvp.TempData)
    (pname : String) (pdesc : Option String) (uid : Nat)
    (hfresh : ∀ q ∈ db.projects, q.id ≠ db.nextProjectId)
    (hunc : db.projects.find? (fun p => p.name = "Uncategorized") = none) :
    (∃ p, (Mvp.handleCreateProject db td pname pdesc).1.projects =
        db.projects ++ [p] ∧ p.userId = none ∧
      (∀ x ∈ Mvp.listProjects (Mvp.handleCreateProject db td pname pdesc).1 uid,
        x.1 ≠ p) ∧
      Mvp.getProject (Mvp.handleCreateProject db td pname pdesc).1 p.id uid =
        .error .forbidden) ∧
    (∃ p, (Mvp.handleSkipProject db td).1.projects = db.projects ++ [p] ∧
      p.userId = none ∧ p.name = "Uncategorized" ∧
      (∀ x ∈ Mvp.listProjects (Mvp.handleSkipProject db td).1 uid, x.1 ≠ p) ∧
      Mvp.getProject (Mvp.handleSkipProject db td).1 p.id uid =
        .error .forbidden) := by
  have hfront : db.projects.find?
      (fun q => decide (q.id = db.nextProjectId)) = none :=
    List.find?_eq_none.mpr (fun x hx hxk => hfresh x hx (of_decide_eq_true hxk))
  constructor
  · refine ⟨{ id := db.nextProjectId, name := pname, description := pdesc,
              taskType := Mvp.dlookup td.config "task_type", userId := none },
            rfl, rfl, ?_, ?_⟩
    · intro x hx heq
      have hu := Mvp.userId_of_mem_listProjects hx
      rw [heq] at hu
      simp at hu
    · unfold Mvp.getProject Mvp.handleCreateProject
      dsimp only
      rw [Mvp.find?_append_of_front_none _ _ hfront]
      simp
  · unfold Mvp.handleSkipProject
    rw [hunc]
    dsimp only
    refine ⟨{ id := db.nextProjectId, name := "Uncategorized",
              description := some "프로젝트 없이 진행한 실험들",
              taskType := none, userId := none },
            rfl, rfl, rfl, ?_, ?_⟩
    · intro x hx heq
      have hu := Mvp.userId_of_mem_listProjects hx
      rw [heq] at hu
      simp at hu
    · unfold Mvp.getProject
      dsimp only
      rw [Mvp.find?_append_of_front_none _ _ hfront]
      simp

/-- C10 witness: on the empty database, both handler-created projects
are ownerless, invisible to user 1's project list, and Forbidden on a
direct get by user 1. -/
theorem c10_chat_projects_unowned_witness :
    (∃ p, (Mvp.handleCreateProject Mvp.exEmptyDb Mvp.TempData.empty
        "My" none).1.projects = Mvp.exEmptyDb.projects ++ [p] ∧
      p.userId = none ∧
      (∀ x ∈ Mvp.listProjects (Mvp.handleCreateProject Mvp.exEmptyDb
          Mvp.TempData.empty "My" none).1 1, x.1 ≠ p) ∧
      Mvp.getProject (Mvp.handleCreateProject Mvp.exEmptyDb
          Mvp.TempData.empty "My" none).1 p.id 1 = .error .forbidden) ∧
    (∃ p, (Mvp.handleSkipProject Mvp.exEmptyDb Mvp.TempData.empty).1.projects =
        Mvp.exEmptyDb.projects ++ [p] ∧
      p.userId = none ∧ p.name = "Uncategorized" ∧
      (∀ x ∈ Mvp.listProjects
          (Mvp.handleSkipProject Mvp.exEmptyDb Mvp.TempData.empty).1 1,
        x.1 ≠ p) ∧
      Mvp.getProject (Mvp.handleSkipProject Mvp.exEmptyDb
          Mvp.TempData.empty).1 p.id 1 = .error .forbidden) :=
  c10_chat_projects_unowned Mvp.exEmptyDb Mvp.TempData.empty "My" none 1
    (by simp [Mvp.exEmptyDb]) (by decide)

/-- C6, counterexample: handling start_training does not leave the
session's temp_data empty — the post-handler merge of `handle_action`
re-inserts the accumulated config under "config", so a session whose
accumulated config holds framework timm ends the turn with that config
still stored. -/
theorem c6_temp_data_not_cleared_counterexample :
    ((Mvp.handleActionStartTraining
        { projects := [], trainingJobs := [], nextProjectId := 1,
          nextJobId := 10 }
        5
        { config := [("framework", .s "timm")], experiment := [],
          selectedProjectId := some 3, availableProjects := [] }
        none (fun c => c)
        { config := none, experiment := none,
          projectId := none }).2.tempData ≠ Mvp.TempData.empty) ∧
    Mvp.dlookup
      ((Mvp.handleActionStartTraining
        { projects := [], trainingJobs := [], nextProjectId := 1,
          nextJobId := 10 }
        5
        { config := [("framework", .s "timm")], experiment := [],
          selectedProjectId := some 3, availableProjects := [] }
        none (fun c => c)
        { config := none, experiment := none,
          projectId := none }).2.tempData.config) "framework" =
      some (.s "timm") := by
  constructor
  · intro h
    exact absurd (congrArg Mvp.TempData.config h) (by decide)
  · decide

/-- C6, amended: handling a start_training action appends exactly one
TrainingJob whose fields come from the payload's config with
Python-`or` fallback to the accumulated session config (dataset_format
defaulting to "imagefolder", output_dir `./outputs/(session_id)`,
status "pending"), transitions to COMPLETE, and returns the new job id;
the returned temp_data drops the experiment, selected-project, and
available-projects entries but — because of the post-handler merge —
retains the accumulated config under "config" instead of being
cleared. -/
theorem c6_start_training_effects (db : Mvp.MvpDb) (sessionId : Nat)
    (td : Mvp.TempData) (llmCfg : Option Mvp.ConfigDict)
    (extractFn : Mvp.ConfigDict → Mvp.ConfigDict)
    (payload : Mvp.StartTrainingPayload) :
    ((Mvp.handleActionStartTraining db sessionId td llmCfg extractFn
        payload).1.trainingJobs =
      db.trainingJobs ++
        [{ id := db.nextJobId
           sessionId := sessionId
           projectId := Mvp.pyOrNat payload.projectId td.selectedProjectId
           framework := Mvp.dlookup (Mvp.pyOrDict payload.config
             (Mvp.preHandlerConfig td.config llmCfg extractFn)) "framework"
           modelName := Mvp.dlookup (Mvp.pyOrDict payload.config
             (Mvp.preHandlerConfig td.config llmCfg extractFn)) "model_name"
           taskType := Mvp.dlookup (Mvp.pyOrDict payload.config
             (Mvp.preHandlerConfig td.config llmCfg extractFn)) "task_type"
           datasetPath := Mvp.dlookup (Mvp.pyOrDict payload.config
             (Mvp.preHandlerConfig td.config llmCfg extractFn)) "dataset_path"
           datasetFormat := (Mvp.dlookup (Mvp.pyOrDict payload.config
             (Mvp.preHandlerConfig td.config llmCfg extractFn))
               "dataset_format").getD (.s "imagefolder")
           numClasses := Mvp.dlookup (Mvp.pyOrDict payload.config
             (Mvp.preHandlerConfig td.config llmCfg extractFn)) "num_classes"
           epochs := Mvp.dlookup (Mvp.pyOrDict payload.config
             (Mvp.preHandlerConfig td.config llmCfg extractFn)) "epochs"
           batchSize := Mvp.dlookup (Mvp.pyOrDict payload.config
             (Mvp.preHandlerConfig td.config llmCfg extractFn)) "batch_size"
           learningRate := Mvp.dlookup (Mvp.pyOrDict payload.config
             (Mvp.preHandlerConfig td.config llmCfg extractFn)) "learning_rate"
           outputDir := "./outputs/" ++ toString sessionId
           experimentName := Mvp.dlookup (Mvp.pyOrDict payload.experiment
             td.experiment) "name"
           tags := Mvp.dlookup (Mvp.pyOrDict payload.experiment
             td.experiment) "tags"
           notes := Mvp.dlookup (Mvp.pyOrDict payload.experiment
             td.experiment) "notes"
           status := "pending" }]) ∧
    ((Mvp.handleActionStartTraining db sessionId td llmCfg extractFn
        payload).1.projects = db.projects) ∧
    ((Mvp.handleActionStartTraining db sessionId td llmCfg extractFn
        payload).2.newState = .complete) ∧
    ((Mvp.handleActionStartTraining db sessionId td llmCfg extractFn
        payload).2.trainingJobId = some db.nextJobId) ∧
    ((Mvp.handleActionStartTraining db sessionId td llmCfg extractFn
        payload).2.tempData.experiment = []) ∧
    ((Mvp.handleActionStartTraining db sessionId td llmCfg extractFn
        payload).2.tempData.selectedProjectId = none) ∧
    ((Mvp.handleActionStartTraining db sessionId td llmCfg extractFn
        payload).2.tempData.availableProjects = []) ∧
    ((Mvp.handleActionStartTraining db sessionId td llmCfg extractFn
        payload).2.tempData.config =
      Mvp.preHandlerConfig td.config llmCfg extractFn) := by
  refine ⟨rfl, rfl, rfl, rfl, rfl, rfl, rfl, ?_⟩
  show Mvp.finalMergedConfig [] (Mvp.preHandlerConfig td.config llmCfg extractFn)
      = Mvp.preHandlerConfig td.config llmCfg extractFn
  unfold Mvp.finalMergedConfig Mvp.pyMerge
  simp

namespace Platform

-- clearDefault only touches the is_default flag.
theorem clearDefault_version (tjid : Nat) (e : ExportJob) :
    (clearDefault tjid e).version = e.version := by
  unfold clearDefault
  split <;> rfl

theorem clearDefault_trainingJobId (tjid : Nat) (e : ExportJob) :
    (clearDefault tjid e).trainingJobId = e.trainingJobId := by
  unfold clearDefault
  split <;> rfl

-- Rows of the targeted training job are never default after clearing.
theorem clearDefault_isDefault (tjid : Nat) (e : ExportJob)
    (h : e.trainingJobId = tjid) : (clearDefault tjid e).isDefault = false := by
  unfold clearDefault
  by_cases hd : e.isDefault
  · rw [if_pos ⟨h, hd⟩]
  · rw [if_neg (by simp [hd])]
    simpa using hd

-- A truthy best checkpoint guarantees checkpoint resolution succeeds.
theorem resolveCheckpoint_ok (rc best : Option String)
    (hb : strTruthy best = true) :
    ∃ ck, resolveCheckpoint rc best = .ok ck := by
  obtain ⟨b, hbp, hbne⟩ : ∃ b, best = some b ∧ ¬ b = "" := by
    cases hc : best with
    | none => rw [hc] at hb; simp [strTruthy] at hb
    | some b =>
        refine ⟨b, rfl, ?_⟩
        rw [hc] at hb
        simpa [strTruthy] using hb
  cases rc with
  | none =>
      rw [hbp]
      exact ⟨b, by simp [resolveCheckpoint, resolveBestCheckpoint, hbne]⟩
  | some c =>
      by_cases hcE : c = ""
      · rw [hbp]
        exact ⟨b, by simp [resolveCheckpoint, resolveBestCheckpoint, hcE, hbne]⟩
      · exact ⟨c, by simp [resolveCheckpoint, hcE]⟩

-- Per-index version values recovered from the map-level invariant.
theorem version_of_mapEq {l : List ExportJob}
    (h : l.map (fun e => e.version) = List.range' 1 l.length)
    (i : Nat) (hi : i < l.length) : (l.get ⟨i, hi⟩).version = i + 1 := by
  have h1 : (l.map (fun e => e.version))[i]? =
      some ((l.get ⟨i, hi⟩).version) := by
    rw [List.getElem?_map, List.getElem?_eq_getElem hi]
    rfl
  rw [h, List.getElem?_eq_getElem (by simpa using hi),
    List.getElem_range'] at h1
  have h2 := Option.some.inj h1
  omega

-- The persistence step of create_export_job preserves the export-table
-- invariant and produces the documented version and default flag.
theorem exportCore_facts (db : ExportDb) (r : ExportJobRequest)
    (tj : ExpTrainingJob) (ck : String)
    (hr : r.trainingJobId = tj.id)
    (hAllT : ∀ e ∈ db.exportJobs, e.trainingJobId = tj.id)
    (hVer : db.exportJobs.map (fun e => e.version) =
      List.range' 1 db.exportJobs.length)
    (hCnt : db.exportJobs.countP (fun e => e.isDefault) ≤ 1) :
    ((exportCore db r tj ck).1.trainingJobs = db.trainingJobs) ∧
    ((exportCore db r tj ck).1.exportJobs.length =
      db.exportJobs.length + 1) ∧
    exportsOk tj.id (exportCore db r tj ck).1.exportJobs ∧
    (∃ rest, (exportCore db r tj ck).1.exportJobs =
        rest ++ [(exportCore db r tj ck).2] ∧
      rest.length = db.exportJobs.length ∧
      (r.setAsDefault = true → ∀ x ∈ rest, x.isDefault = false)) ∧
    ((exportCore db r tj ck).2.isDefault =
      (r.setAsDefault || decide (db.exportJobs.length = 0))) ∧
    ((exportCore db r tj ck).2.version = db.exportJobs.length + 1) := by
  have hfilt : db.exportJobs.filter
      (fun e => e.trainingJobId = r.trainingJobId) = db.exportJobs :=
    List.filter_eq_self.mpr (fun a ha => by simp [hr, hAllT a ha])
  have hcoreT : (exportCore db r tj ck).1.trainingJobs = db.trainingJobs := rfl
  have hcoreId : (exportCore db r tj ck).2.trainingJobId =
    r.trainingJobId := rfl
  have hcoreV : (exportCore db r tj ck).2.version =
      (db.exportJobs.filter
        (fun e => e.trainingJobId = r.trainingJobId)).length + 1 := rfl
  rw [hfilt] at hcoreV
  have hcoreD : (exportCore db r tj ck).2.isDefault =
      (r.setAsDefault || decide ((db.exportJobs.filter
        (fun e => e.trainingJobId = r.trainingJobId)).length + 1 = 1)) := rfl
  rw [hfilt] at hcoreD
  have hdec : decide (db.exportJobs.length + 1 = 1) =
      decide (db.exportJobs.length = 0) := by
    cases hn : db.exportJobs.length <;> simp
  rw [hdec] at hcoreD
  have hcoreE : (exportCore db r tj ck).1.exportJobs =
      (if r.setAsDefault then
        db.exportJobs.map (clearDefault r.trainingJobId)
       else db.exportJobs) ++ [(exportCore db r tj ck).2] := rfl
  by_cases sd : r.setAsDefault
  · rw [if_pos sd] at hcoreE
    have hclrAll : ∀ x ∈ db.exportJobs.map (clearDefault r.trainingJobId),
        x.isDefault = false := by
      intro x hx
      obtain ⟨y, hy, rfl⟩ := List.mem_map.mp hx
      exact clearDefault_isDefault _ _ (by rw [hAllT y hy, hr])
    have hlen : (exportCore db r tj ck).1.exportJobs.length =
        db.exportJobs.length + 1 := by
      rw [hcoreE]
      simp
    refine ⟨hcoreT, hlen, ⟨?_, ?_, ?_⟩, ⟨_, hcoreE, by simp, fun _ => hclrAll⟩,
      hcoreD, hcoreV⟩
    · intro x hx
      rw [hcoreE] at hx
      rcases List.mem_append.mp hx with hx | hx
      · obtain ⟨y, hy, rfl⟩ := List.mem_map.mp hx
        rw [clearDefault_trainingJobId]
        exact hAllT y hy
      · have hxe : x = (exportCore db r tj ck).2 := by simpa using hx
        rw [hxe, hcoreId, hr]
    · have hmv : db.exportJobs.map
          ((fun e => e.version) ∘ clearDefault r.trainingJobId) =
          db.exportJobs.map (fun e => e.version) :=
        List.map_congr_left (fun x _ => clearDefault_version _ _)
      have hv1 : [(exportCore db r tj ck).2].map (fun e => e.version) =
          [1 + 1 * db.exportJobs.length] := by
        rw [List.map_singleton, hcoreV]
        congr 1
        omega
      have hlen2 : (db.exportJobs.map (clearDefault r.trainingJobId) ++
          [(exportCore db r tj ck).2]).length =
          db.exportJobs.length + 1 := by simp
      rw [hcoreE, List.map_append, List.map_map, hmv, hVer, hv1, hlen2,
        List.range'_concat]
    · rw [hcoreE, List.countP_append]
      have h0 : (db.exportJobs.map (clearDefault r.trainingJobId)).countP
          (fun e => e.isDefault) = 0 :=
        List.countP_eq_zero.mpr (fun x hx => by simp [hclrAll x hx])
      have h1 : ([(exportCore db r tj ck).2].countP
          (fun e => e.isDefault)) ≤ 1 := by
        simpa using List.countP_le_length (l := [(exportCore db r tj ck).2])
          (fun e => e.isDefault)
      omega
  · rw [if_neg sd] at hcoreE
    have hsd : r.setAsDefault = false := by simpa using sd
    have hlen : (exportCore db r tj ck).1.exportJobs.length =
        db.exportJobs.length + 1 := by
      rw [hcoreE]
      simp
    refine ⟨hcoreT, hlen, ⟨?_, ?_, ?_⟩,
      ⟨_, hcoreE, rfl, fun hcon => absurd hcon (by simp [hsd])⟩,
      hcoreD, hcoreV⟩
    · intro x hx
      rw [hcoreE] at hx
      rcases List.mem_append.mp hx with hx | hx
      · exact hAllT x hx
      · have hxe : x = (exportCore db r tj ck).2 := by simpa using hx
        rw [hxe, hcoreId, hr]
    · have hv1 : [(exportCore db r tj ck).2].map (fun e => e.version) =
          [1 + 1 * db.exportJobs.length] := by
        rw [List.map_singleton, hcoreV]
        congr 1
        omega
      have hlen2 : (db.exportJobs ++ [(exportCore db r tj ck).2]).length =
          db.exportJobs.length + 1 := by simp
      rw [hcoreE, List.map_append, hVer, hv1, hlen2, List.range'_concat]
    · rw [hcoreE, List.countP_append]
      by_cases hn : db.exportJobs.length = 0
      · have hnil : db.exportJobs = [] := List.length_eq_zero.mp hn
        have h1 : ([(exportCore db r tj ck).2].countP
            (fun e => e.isDefault)) ≤ 1 := by
          simpa using List.countP_le_length
            (l := [(exportCore db r tj ck).2]) (fun e => e.isDefault)
        rw [hnil]
        simpa using h1
      · have he : (exportCore db r tj ck).2.isDefault = false := by
          rw [hcoreD, hsd]
          simp [hn]
        have h0 : ([(exportCore db r tj ck).2].countP
            (fun e => e.isDefault)) = 0 := by
          simp [List.countP_cons, he]
        omega

-- One successful create_export_job call, assembled.
theorem createExportJob_step (tj : ExpTrainingJob) (db : ExportDb)
    (r : ExportJobRequest)
    (hb : strTruthy tj.bestCheckpointPath = true)
    (hT : db.trainingJobs = [tj])
    (hr : r.trainingJobId = tj.id)
    (hInv : exportsOk tj.id db.exportJobs) :
    ∃ db' e, createExportJob db r = .ok (db', e) ∧
      db'.trainingJobs = db.trainingJobs ∧
      db'.exportJobs.length = db.exportJobs.length + 1 ∧
      exportsOk tj.id db'.exportJobs ∧
      (∃ rest, db'.exportJobs = rest ++ [e] ∧
        rest.length = db.exportJobs.length ∧
        (r.setAsDefault = true → ∀ x ∈ rest, x.isDefault = false)) ∧
      e.isDefault = (r.setAsDefault || decide (db.exportJobs.length = 0)) ∧
      e.version = db.exportJobs.length + 1 := by
  obtain ⟨hAllT, hVer, hCnt⟩ := hInv
  have hfind : db.trainingJobs.find? (fun t => t.id = r.trainingJobId) =
      some tj := by
    rw [hT, hr]
    simp [List.find?]
  obtain ⟨ck, hck⟩ := resolveCheckpoint_ok r.checkpointPath
    tj.bestCheckpointPath hb
  obtain ⟨f1, f2, f3, f4, f5, f6⟩ := exportCore_facts db r tj ck hr hAllT hVer hCnt
  refine ⟨(exportCore db r tj ck).1, (exportCore db r tj ck).2, ?_,
    f1, f2, f3, f4, f5, f6⟩
  unfold createExportJob
  rw [hfind]
  dsimp only
  rw [hck]

-- Unfolding one fold step over a cons, given the call succeeded.
theorem createExportJobsFold_cons_ok {db db' : ExportDb}
    {r : ExportJobRequest} {e : ExportJob} (rs : List ExportJobRequest)
    (hok : createExportJob db r = .ok (db', e)) :
    createExportJobsFold db (r :: rs) = createExportJobsFold db' rs := by
  unfold createExportJobsFold
  rw [List.foldl_cons]
  congr 1
  show (match createExportJob db r with
    | Except.ok (d', _) => d'
    | Except.error _ => db) = db'
  rw [hok]

-- A fold over an appended request list runs the two parts in sequence.
theorem createExportJobsFold_append (db : ExportDb)
    (l1 l2 : List ExportJobRequest) :
    createExportJobsFold db (l1 ++ l2) =
      createExportJobsFold (createExportJobsFold db l1) l2 := by
  unfold createExportJobsFold
  rw [List.foldl_append]

-- Folding a request sequence preserves the export-table invariant.
theorem createExportJobsFold_inv (tj : ExpTrainingJob)
    (hb : strTruthy tj.bestCheckpointPath = true)
    (reqs : List ExportJobRequest) :
    ∀ db : ExportDb, db.trainingJobs = [tj] →
      exportsOk tj.id db.exportJobs →
      (∀ r ∈ reqs, r.trainingJobId = tj.id) →
      (createExportJobsFold db reqs).trainingJobs = [tj] ∧
      exportsOk tj.id (createExportJobsFold db reqs).exportJobs ∧
      (createExportJobsFold db reqs).exportJobs.length =
        db.exportJobs.length + reqs.length := by
  induction reqs with
  | nil =>
      intro db hT hInv _
      exact ⟨hT, hInv, rfl⟩
  | cons r rs ih =>
      intro db hT hInv hreq
      obtain ⟨db', e, hok, hTj, hlen, hInv', _, _, _⟩ :=
        createExportJob_step tj db r hb hT (hreq r (by simp)) hInv
      rw [createExportJobsFold_cons_ok rs hok]
      have hT' : db'.trainingJobs = [tj] := by rw [hTj, hT]
      obtain ⟨a1, a2, a3⟩ := ih db' hT' hInv'
        (fun x hx => hreq x (by simp [hx]))
      refine ⟨a1, a2, ?_⟩
      rw [a3, hlen, List.length_cons]
      omega

end Platform

/-- C2: starting from an empty export table, any sequence of
create-export-job requests against the same training job yields
version 1, 2, ..., n in creation order; the table never holds more than
one default export; the first export is created default regardless of
its request; and a request asking set_as_default leaves the new export
as the single default with every sibling's flag cleared. -/
theorem c2_export_version_default_invariants
    (tj : Platform.ExpTrainingJob) (db0 : Platform.ExportDb)
    (reqs : List Platform.ExportJobRequest)
    (hb : strTruthy tj.bestCheckpointPath = true)
    (hT : db0.trainingJobs = [tj])
    (hE : db0.exportJobs = [])
    (hreq : ∀ r ∈ reqs, r.trainingJobId = tj.id) :
    ((Platform.createExportJobsFold db0 reqs).exportJobs.length =
      reqs.length) ∧
    (∀ i (hi : i < (Platform.createExportJobsFold db0 reqs).exportJobs.length),
      ((Platform.createExportJobsFold db0 reqs).exportJobs.get
        ⟨i, hi⟩).version = i + 1) ∧
    ((Platform.createExportJobsFold db0 reqs).exportJobs.countP
      (fun e => e.isDefault) ≤ 1) ∧
    (∀ r, reqs.head? = some r →
      ∃ e, (Platform.createExportJobsFold db0 [r]).exportJobs = [e] ∧
        e.isDefault = true ∧ e.version = 1) ∧
    (∀ k (hk : k < reqs.length),
      (reqs.get ⟨k, hk⟩).setAsDefault = true →
      ∃ rest e,
        (Platform.createExportJobsFold db0 (reqs.take (k + 1))).exportJobs =
          rest ++ [e] ∧
        e.isDefault = true ∧ ∀ x ∈ rest, x.isDefault = false) := by
  have hInv0 : Platform.exportsOk tj.id db0.exportJobs := by
    rw [hE]
    exact ⟨by simp, by simp, by simp⟩
  obtain ⟨hT', hInv', hlen'⟩ :=
    Platform.createExportJobsFold_inv tj hb reqs db0 hT hInv0 hreq
  refine ⟨?_, ?_, hInv'.2.2, ?_, ?_⟩
  · rw [hlen', hE]
    simp
  · intro i hi
    exact Platform.version_of_mapEq hInv'.2.1 i hi
  · intro r hrh
    have hrmem : r ∈ reqs := by
      cases reqs with
      | nil => simp at hrh
      | cons a l =>
          have : a = r := by simpa using hrh
          simp [this]
    obtain ⟨db', e, hok, _, _, _, ⟨rest, hre, hrl, _⟩, hd, hv⟩ :=
      Platform.createExportJob_step tj db0 r hb hT (hreq r hrmem) hInv0
    have hfold : Platform.createExportJobsFold db0 [r] = db' :=
      Platform.createExportJobsFold_cons_ok [] hok
    rw [hE] at hrl hd hv
    have hrest : rest = [] := List.length_eq_zero.mp (by simpa using hrl)
    refine ⟨e, ?_, ?_, by simpa using hv⟩
    · rw [hfold, hre, hrest]
      rfl
    · rw [hd]
      simp
  · intro k hk hsd
    have hsub : ∀ x ∈ reqs.take k, x.trainingJobId = tj.id :=
      fun x hx => hreq x (List.mem_of_mem_take hx)
    obtain ⟨hTk, hInvK, _⟩ :=
      Platform.createExportJobsFold_inv tj hb (reqs.take k) db0 hT hInv0 hsub
    obtain ⟨db', e, hok, _, _, _, ⟨rest, hre, _, hclr⟩, hd, _⟩ :=
      Platform.createExportJob_step tj
        (Platform.createExportJobsFold db0 (reqs.take k))
        (reqs.get ⟨k, hk⟩) hb hTk
        (hreq _ (List.get_mem reqs k hk)) hInvK
    have htake : reqs.take (k + 1) =
        reqs.take k ++ [reqs.get ⟨k, hk⟩] := by
      rw [List.take_succ, List.getElem?_eq_getElem hk]
      rfl
    have hfold : Platform.createExportJobsFold db0 (reqs.take (k + 1)) =
        db' := by
      rw [htake, Platform.createExportJobsFold_append]
      exact Platform.createExportJobsFold_cons_ok [] hok
    rw [hfold]
    refine ⟨rest, e, hre, ?_, fun x hx => hclr hsd x hx⟩
    rw [hd, hsd]
    simp

/-- C2 witness: three concrete requests (plain, plain, set_as_default)
against one training job satisfy the version, first-default, and
single-default properties. -/
theorem c2_export_version_default_invariants_witness :
    ((Platform.createExportJobsFold Platform.exExportDb
        Platform.exReqs).exportJobs.length = Platform.exReqs.length) ∧
    (∀ i (hi : i < (Platform.createExportJobsFold Platform.exExportDb
        Platform.exReqs).exportJobs.length),
      ((Platform.createExportJobsFold Platform.exExportDb
        Platform.exReqs).exportJobs.get ⟨i, hi⟩).version = i + 1) ∧
    ((Platform.createExportJobsFold Platform.exExportDb
        Platform.exReqs).exportJobs.countP (fun e => e.isDefault) ≤ 1) ∧
    (∀ r, Platform.exReqs.head? = some r →
      ∃ e, (Platform.createExportJobsFold Platform.exExportDb
          [r]).exportJobs = [e] ∧
        e.isDefault = true ∧ e.version = 1) ∧
    (∀ k (hk : k < Platform.exReqs.length),
      (Platform.exReqs.get ⟨k, hk⟩).setAsDefault = true →
      ∃ rest e,
        (Platform.createExportJobsFold Platform.exExportDb
          (Platform.exReqs.take (k + 1))).exportJobs = rest ++ [e] ∧
        e.isDefault = true ∧ ∀ x ∈ rest, x.isDefault = false) :=
  c2_export_version_default_invariants Platform.exTj Platform.exExportDb
    Platform.exReqs (by decide) rfl rfl (by decide)
